import Mathlib

/-!
Verification of the light-source boundary descriptor of the rust-assimp
bindings: the `LightType` enumeration and the `Light` structure from
`src/light.rs`, together with the translation layer between them and the
raw native-shaped record as described by the design specification.

The primitive value types (`AiString`, `Vector3D`, `Color3D`), the error
taxonomy, and the from-native / to-native translation operations are not
present in the source excerpt; they are modelled from the specification
and marked as such in their doc comments.  `LightType`, its discriminant
values, and the `Light` field list are taken directly from `src/light.rs`.
-/

set_option autoImplicit false

/-- Model of a 32-bit IEEE-754 `c_float` value as it is used across this
boundary.  The core only ever copies float fields verbatim and compares
them with the IEEE equality that Rust's derived `PartialEq` uses, so the
model keeps the finite payload abstract as a rational number and singles
out NaN, the one class of values for which IEEE equality is not
reflexive. -/
inductive CFloat where
  | nan : CFloat
  | val : ℚ → CFloat
deriving DecidableEq

/-- IEEE / Rust `==` on `c_float`: NaN compares unequal to everything,
including itself; ordinary values compare by value. -/
def CFloat.beq : CFloat → CFloat → Bool
  | .val a, .val b => decide (a = b)
  | _, _ => false

/-- Whether a `c_float` is NaN. -/
def CFloat.isNan : CFloat → Bool
  | .nan => true
  | .val _ => false

/-- Modelled from the spec: `Vector3D`, a primitive value type of three
single-precision floating components; its defining source file is not in
the excerpt (only its use as a field type of `Light` is). -/
structure Vector3D where
  x : CFloat
  y : CFloat
  z : CFloat
deriving DecidableEq

/-- Component-wise derived `PartialEq` on `Vector3D`. -/
def Vector3D.beq (a b : Vector3D) : Bool :=
  CFloat.beq a.x b.x && CFloat.beq a.y b.y && CFloat.beq a.z b.z

/-- All three components are non-NaN. -/
def Vector3D.nanFree (v : Vector3D) : Bool :=
  !v.x.isNan && !v.y.isNan && !v.z.isNan

/-- Modelled from the spec: `Color3D`, a primitive value type of three
single-precision floating components (no alpha); its defining source file
is not in the excerpt. -/
structure Color3D where
  r : CFloat
  g : CFloat
  b : CFloat
deriving DecidableEq

/-- Component-wise derived `PartialEq` on `Color3D`. -/
def Color3D.beq (a c : Color3D) : Bool :=
  CFloat.beq a.r c.r && CFloat.beq a.g c.g && CFloat.beq a.b c.b

/-- All three components are non-NaN. -/
def Color3D.nanFree (c : Color3D) : Bool :=
  !c.r.isNan && !c.g.isNan && !c.b.isNan

/-- The documented maximum byte length of the bounded string, matching the
native `MAXLEN` constant of assimp's `aiString`. -/
def MAXLEN : Nat := 1024

/-- Modelled from the spec: the error taxonomy of the translation layer.
`UnrecognizedDiscriminant` carries the offending native integer;
`CapacityExceeded` carries the offending byte length. -/
inductive TranslateError where
  | UnrecognizedDiscriminant : Int → TranslateError
  | CapacityExceeded : Nat → TranslateError
deriving DecidableEq

/-- Modelled from the spec: `AiString`, the bounded-length string value
type — an explicit logical length plus a fixed-capacity byte buffer of
`MAXLEN` bytes whose trailing (unused) content is unspecified.  Its
defining source file is not in the excerpt. -/
structure AiString where
  length : Nat
  data : List Nat
deriving DecidableEq

/-- Padding-insensitive string comparison: two bounded strings are equal
when their logical lengths agree and the meaningful prefixes of their
buffers agree; the content of unused trailing capacity is ignored. -/
def AiString.beq (a b : AiString) : Bool :=
  decide (a.length = b.length)
    && decide (a.data.take a.length = b.data.take b.length)

/-- Modelled from the spec: constructing the bounded string from a raw
(length, buffer) pair, failing with `CapacityExceeded` (carrying the
offending length) when the recorded length exceeds the capacity; never
truncating. -/
def AiString.from_raw (len : Nat) (buf : List Nat) :
    Except TranslateError AiString :=
  if MAXLEN < len then .error (.CapacityExceeded len)
  else .ok ⟨len, buf⟩

/-- Modelled from the spec: constructing the bounded string from host
text (a byte sequence), failing with `CapacityExceeded` rather than
silently truncating when the input is longer than `MAXLEN`; on success
the buffer holds the input bytes followed by zeroed unused capacity. -/
def AiString.new (s : List Nat) : Except TranslateError AiString :=
  AiString.from_raw s.length (s ++ List.replicate (MAXLEN - s.length) 0)

/-- The `LightType` enumeration of `src/light.rs` (discriminants 0x0,
0x1, 0x2, 0x3 in the source). -/
inductive LightType where
  | Undefined
  | Directional
  | Point
  | Spot
deriving DecidableEq

/-- The native integer discriminant of each `LightType` variant, as
written in `src/light.rs` (`Undefined = 0x0`, `Directional = 0x1`,
`Point = 0x2`, `Spot = 0x3`). -/
def LightType.toNative : LightType → Int
  | .Undefined => 0
  | .Directional => 1
  | .Point => 2
  | .Spot => 3

/-- Modelled from the spec: the translation-from-native-integer operation
on `LightType`, failing with `UnrecognizedDiscriminant` (carrying the
offending integer) on any integer outside the four discriminants written
in `src/light.rs`. -/
def LightType.fromNative (i : Int) : Except TranslateError LightType :=
  if i = 0 then .ok .Undefined
  else if i = 1 then .ok .Directional
  else if i = 2 then .ok .Point
  else if i = 3 then .ok .Spot
  else .error (.UnrecognizedDiscriminant i)

/-- The `Light` boundary structure of `src/light.rs`, field for field in
source order. -/
structure Light where
  name : AiString
  light_type : LightType
  position : Vector3D
  direction : Vector3D
  attenuation_constant : CFloat
  attenuation_linear : CFloat
  attenuation_quadratic : CFloat
  color_diffuse : Color3D
  color_specular : Color3D
  color_ambient : Color3D
  angle_inner_cone : CFloat
  angle_outer_cone : CFloat
deriving DecidableEq

/-- The derived component-wise `PartialEq` of `Light` (`#[derive(…,
PartialEq, …)]` in `src/light.rs`): float-bearing fields compare with
IEEE equality, the name with the padding-insensitive string comparison,
and the light type with its decidable equality. -/
def Light.beq (a b : Light) : Bool :=
  AiString.beq a.name b.name
    && decide (a.light_type = b.light_type)
    && Vector3D.beq a.position b.position
    && Vector3D.beq a.direction b.direction
    && CFloat.beq a.attenuation_constant b.attenuation_constant
    && CFloat.beq a.attenuation_linear b.attenuation_linear
    && CFloat.beq a.attenuation_quadratic b.attenuation_quadratic
    && Color3D.beq a.color_diffuse b.color_diffuse
    && Color3D.beq a.color_specular b.color_specular
    && Color3D.beq a.color_ambient b.color_ambient
    && CFloat.beq a.angle_inner_cone b.angle_inner_cone
    && CFloat.beq a.angle_outer_cone b.angle_outer_cone

/-- No float field of the descriptor, including the components of its
vectors and colors, is NaN. -/
def Light.nanFree (d : Light) : Bool :=
  d.position.nanFree && d.direction.nanFree
    && !d.attenuation_constant.isNan
    && !d.attenuation_linear.isNan
    && !d.attenuation_quadratic.isNan
    && d.color_diffuse.nanFree && d.color_specular.nanFree
    && d.color_ambient.nanFree
    && !d.angle_inner_cone.isNan && !d.angle_outer_cone.isNan

/-- Modelled from the spec: the raw native-shaped light record — the
field order and widths of assimp's `aiLight` (name as explicit length
plus fixed buffer, kind as a native signed integer, all scalars and
vector/color components as 32-bit floats). -/
structure AiLightRaw where
  name_length : Nat
  name_data : List Nat
  light_type : Int
  position : Vector3D
  direction : Vector3D
  attenuation_constant : CFloat
  attenuation_linear : CFloat
  attenuation_quadratic : CFloat
  color_diffuse : Color3D
  color_specular : Color3D
  color_ambient : Color3D
  angle_inner_cone : CFloat
  angle_outer_cone : CFloat
deriving DecidableEq

/-- Modelled from the spec: the from-native translation.  It translates
the integer kind via `LightType.fromNative` (propagating its failure),
copies the name through the bounded-string constructor (propagating its
failure), and copies every vector, color and scalar field verbatim; no
geometry, attenuation or angle field is range-checked. -/
def Light.from_native (r : AiLightRaw) : Except TranslateError Light :=
  match LightType.fromNative r.light_type with
  | .error e => .error e
  | .ok t =>
    match AiString.from_raw r.name_length r.name_data with
    | .error e => .error e
    | .ok nm =>
      .ok { name := nm
            light_type := t
            position := r.position
            direction := r.direction
            attenuation_constant := r.attenuation_constant
            attenuation_linear := r.attenuation_linear
            attenuation_quadratic := r.attenuation_quadratic
            color_diffuse := r.color_diffuse
            color_specular := r.color_specular
            color_ambient := r.color_ambient
            angle_inner_cone := r.angle_inner_cone
            angle_outer_cone := r.angle_outer_cone }

/-- Modelled from the spec: the to-native translation, the exact inverse
copy; total, since every field of a descriptor has a representable
native equivalent. -/
def Light.to_native (d : Light) : AiLightRaw :=
  { name_length := d.name.length
    name_data := d.name.data
    light_type := d.light_type.toNative
    position := d.position
    direction := d.direction
    attenuation_constant := d.attenuation_constant
    attenuation_linear := d.attenuation_linear
    attenuation_quadratic := d.attenuation_quadratic
    color_diffuse := d.color_diffuse
    color_specular := d.color_specular
    color_ambient := d.color_ambient
    angle_inner_cone := d.angle_inner_cone
    angle_outer_cone := d.angle_outer_cone }

lemma fromNative_toNative (k : LightType) :
    LightType.fromNative k.toNative = .ok k := by
  cases k <;> rfl

lemma fromNative_err (i : Int)
    (h : ¬(i = 0 ∨ i = 1 ∨ i = 2 ∨ i = 3)) :
    LightType.fromNative i = .error (.UnrecognizedDiscriminant i) := by
  push_neg at h
  obtain ⟨h0, h1, h2, h3⟩ := h
  simp [LightType.fromNative, h0, h1, h2, h3]

lemma fromNative_ok_iff (i : Int) (k : LightType) :
    LightType.fromNative i = .ok k ↔ i = k.toNative := by
  unfold LightType.fromNative
  split_ifs with h0 h1 h2 h3 <;> cases k <;>
    simp_all [LightType.toNative]

lemma fromNative_isOk_iff (i : Int) :
    (LightType.fromNative i).isOk = true ↔
      (i = 0 ∨ i = 1 ∨ i = 2 ∨ i = 3) := by
  unfold LightType.fromNative
  split_ifs <;> simp_all [Except.isOk, Except.toBool]

lemma cfloat_beq_self (x : CFloat) : CFloat.beq x x = !x.isNan := by
  cases x <;> simp [CFloat.beq, CFloat.isNan]

lemma vector3D_beq_self (v : Vector3D) : Vector3D.beq v v = v.nanFree := by
  simp [Vector3D.beq, Vector3D.nanFree, cfloat_beq_self]

lemma color3D_beq_self (c : Color3D) : Color3D.beq c c = c.nanFree := by
  simp [Color3D.beq, Color3D.nanFree, cfloat_beq_self]

lemma light_beq_self (d : Light) : Light.beq d d = d.nanFree := by
  simp [Light.beq, Light.nanFree, AiString.beq, cfloat_beq_self,
    vector3D_beq_self, color3D_beq_self]

lemma roundtrip_structural (d : Light) (h : d.name.length ≤ MAXLEN) :
    Light.from_native (Light.to_native d) = .ok d := by
  have hnot : ¬ MAXLEN < d.name.length := not_lt.mpr h
  simp [Light.from_native, Light.to_native, AiString.from_raw,
    fromNative_toNative, hnot]

lemma from_native_isOk_iff (r : AiLightRaw) :
    (Light.from_native r).isOk = true ↔
      ((r.light_type = 0 ∨ r.light_type = 1 ∨ r.light_type = 2
          ∨ r.light_type = 3)
        ∧ r.name_length ≤ MAXLEN) := by
  unfold Light.from_native
  rcases hk : LightType.fromNative r.light_type with e | t
  · have hbad : ¬(r.light_type = 0 ∨ r.light_type = 1 ∨ r.light_type = 2
        ∨ r.light_type = 3) := by
      intro hc
      have hok := (fromNative_isOk_iff r.light_type).mpr hc
      rw [hk] at hok
      simp [Except.isOk, Except.toBool] at hok
    simp [Except.isOk, Except.toBool, hbad]
  · have hgood : r.light_type = 0 ∨ r.light_type = 1 ∨ r.light_type = 2
        ∨ r.light_type = 3 :=
      (fromNative_isOk_iff r.light_type).mp (by rw [hk]; rfl)
    unfold AiString.from_raw
    split_ifs with hl
    · simp [Except.isOk, Except.toBool, hgood]
      omega
    · simp [Except.isOk, Except.toBool, hgood, Nat.le_of_not_lt hl]

lemma from_native_fields (r : AiLightRaw) (d : Light)
    (h : Light.from_native r = .ok d) :
    d.name.length = r.name_length ∧ d.name.data = r.name_data
    ∧ d.light_type.toNative = r.light_type
    ∧ d.position = r.position ∧ d.direction = r.direction
    ∧ d.attenuation_constant = r.attenuation_constant
    ∧ d.attenuation_linear = r.attenuation_linear
    ∧ d.attenuation_quadratic = r.attenuation_quadratic
    ∧ d.color_diffuse = r.color_diffuse
    ∧ d.color_specular = r.color_specular
    ∧ d.color_ambient = r.color_ambient
    ∧ d.angle_inner_cone = r.angle_inner_cone
    ∧ d.angle_outer_cone = r.angle_outer_cone := by
  unfold Light.from_native at h
  rcases hk : LightType.fromNative r.light_type with e | t <;> rw [hk] at h
  · simp at h
  · unfold AiString.from_raw at h
    split_ifs at h with hl
    simp only [Except.ok.injEq] at h
    subst h
    refine ⟨rfl, rfl, ?_, rfl, rfl, rfl, rfl, rfl, rfl, rfl, rfl, rfl, rfl⟩
    exact ((fromNative_ok_iff r.light_type t).mp hk).symm

/-- The bytes of the name used in the spec's Sun scenario. -/
def sunBytes : List Nat := [83, 117, 110]

/-- A well-formed directional descriptor matching the spec's Sun
scenario: kind Directional, direction (0, -1, 0), unit attenuation and
colors. -/
def sunLight : Light :=
  { name := ⟨3, sunBytes ++ List.replicate (MAXLEN - 3) 0⟩
    light_type := .Directional
    position := ⟨.val 0, .val 0, .val 0⟩
    direction := ⟨.val 0, .val (-1), .val 0⟩
    attenuation_constant := .val 1
    attenuation_linear := .val 0
    attenuation_quadratic := .val 0
    color_diffuse := ⟨.val 1, .val 1, .val 1⟩
    color_specular := ⟨.val 1, .val 1, .val 1⟩
    color_ambient := ⟨.val 1, .val 1, .val 1⟩
    angle_inner_cone := .val 0
    angle_outer_cone := .val 0 }

/-- A directional descriptor carrying NaN in its attenuation-constant
field, a field the documentation leaves undefined for directional
lights; constructible through the public field-by-field construction. -/
def nanLight : Light :=
  { sunLight with attenuation_constant := .nan }

/-- C2: the `LightType` enumeration has exactly the four variants
`Undefined`, `Directional`, `Point`, `Spot`, and their integer
discriminants are exactly 0, 1, 2 and 3. -/
theorem lightType_variants_and_discriminants :
    (∀ k : LightType,
      k = .Undefined ∨ k = .Directional ∨ k = .Point ∨ k = .Spot)
    ∧ LightType.toNative .Undefined = 0
    ∧ LightType.toNative .Directional = 1
    ∧ LightType.toNative .Point = 2
    ∧ LightType.toNative .Spot = 3 := by
  refine ⟨fun k => ?_, rfl, rfl, rfl, rfl⟩
  cases k
  · exact Or.inl rfl
  · exact Or.inr (Or.inl rfl)
  · exact Or.inr (Or.inr (Or.inl rfl))
  · exact Or.inr (Or.inr (Or.inr rfl))

/-- C3: round-trip on the enumeration — for every `LightType` value `k`,
translating `k` to its native integer and back yields `k`. -/
theorem lightType_roundtrip (k : LightType) :
    LightType.fromNative (LightType.toNative k) = .ok k :=
  fromNative_toNative k

/-- Witness for C3 at the concrete value `Point`. -/
theorem lightType_roundtrip_witness :
    LightType.fromNative (LightType.toNative .Point) = .ok .Point :=
  lightType_roundtrip .Point

/-- C4: translation-from-native-integer succeeds exactly on the integers
0, 1, 2, 3; on every other integer it fails with
`UnrecognizedDiscriminant` carrying the offending integer (in particular
input 4 fails carrying 4); and any successful result is one of the four
enumeration variants. -/
theorem fromNative_rejects_unrecognized :
    (∀ i : Int, (i = 0 ∨ i = 1 ∨ i = 2 ∨ i = 3) →
      ∃ k, LightType.fromNative i = .ok k)
    ∧ (∀ i : Int, ¬(i = 0 ∨ i = 1 ∨ i = 2 ∨ i = 3) →
      LightType.fromNative i = .error (.UnrecognizedDiscriminant i))
    ∧ LightType.fromNative 4 = .error (.UnrecognizedDiscriminant 4)
    ∧ (∀ (i : Int) (k : LightType), LightType.fromNative i = .ok k →
      k = .Undefined ∨ k = .Directional ∨ k = .Point ∨ k = .Spot) := by
  refine ⟨?_, fromNative_err, fromNative_err 4 (by decide), ?_⟩
  · rintro i (rfl | rfl | rfl | rfl)
    · exact ⟨.Undefined, rfl⟩
    · exact ⟨.Directional, rfl⟩
    · exact ⟨.Point, rfl⟩
    · exact ⟨.Spot, rfl⟩
  · intro i k _
    cases k
    · exact Or.inl rfl
    · exact Or.inr (Or.inl rfl)
    · exact Or.inr (Or.inr (Or.inl rfl))
    · exact Or.inr (Or.inr (Or.inr rfl))

/-- Witness for C4 at the concrete integers 2 and 99. -/
theorem fromNative_rejects_unrecognized_witness :
    (∃ k, LightType.fromNative 2 = .ok k)
    ∧ LightType.fromNative 99
        = .error (.UnrecognizedDiscriminant 99) :=
  ⟨fromNative_rejects_unrecognized.1 2 (by decide),
    fromNative_rejects_unrecognized.2.1 99 (by decide)⟩

/-- C6: the to-native translations are total — every descriptor has a
unique raw image under `Light.to_native`, and every `LightType` has
exactly one valid native integer representation: `fromNative i` is
`ok k` precisely when `i` is `toNative k`. -/
theorem toNative_total_unique :
    (∀ d : Light, ∃ r : AiLightRaw, Light.to_native d = r)
    ∧ ∀ (k : LightType) (i : Int),
        LightType.fromNative i = .ok k ↔ i = LightType.toNative k :=
  ⟨fun d => ⟨Light.to_native d, rfl⟩, fun k i => fromNative_ok_iff i k⟩

/-- Witness for C6 at the concrete value `Spot` and integer 3. -/
theorem toNative_total_unique_witness :
    LightType.fromNative 3 = .ok .Spot :=
  (toNative_total_unique.2 .Spot 3).mpr rfl

/-- C5: from-native fails exactly when the raw kind integer is outside
0–3 or the raw name length exceeds the bounded-string capacity; on
success the produced descriptor is fully constructed, every field being
the translated copy of the corresponding raw field. -/
theorem from_native_failure_characterization :
    ∀ r : AiLightRaw,
      ((Light.from_native r).isOk = true ↔
        ((r.light_type = 0 ∨ r.light_type = 1 ∨ r.light_type = 2
            ∨ r.light_type = 3)
          ∧ r.name_length ≤ MAXLEN))
      ∧ ∀ d : Light, Light.from_native r = .ok d →
          d.name.length = r.name_length ∧ d.name.data = r.name_data
          ∧ d.light_type.toNative = r.light_type
          ∧ d.position = r.position ∧ d.direction = r.direction
          ∧ d.attenuation_constant = r.attenuation_constant
          ∧ d.attenuation_linear = r.attenuation_linear
          ∧ d.attenuation_quadratic = r.attenuation_quadratic
          ∧ d.color_diffuse = r.color_diffuse
          ∧ d.color_specular = r.color_specular
          ∧ d.color_ambient = r.color_ambient
          ∧ d.angle_inner_cone = r.angle_inner_cone
          ∧ d.angle_outer_cone = r.angle_outer_cone :=
  fun r => ⟨from_native_isOk_iff r, fun d h => from_native_fields r d h⟩

/-- Witness for C5: the Sun scenario record translates successfully. -/
theorem from_native_failure_characterization_witness :
    (Light.from_native (Light.to_native sunLight)).isOk = true :=
  (from_native_failure_characterization (Light.to_native sunLight)).1.mpr
    (by decide)

/-- C7: bounded-string construction succeeds at exactly the maximum byte
length, fails with `CapacityExceeded` carrying the offending length on
any longer input, and never silently truncates — a successful
construction stores the input bytes exactly. -/
theorem aiString_new_capacity :
    (∀ s : List Nat, s.length = MAXLEN → (AiString.new s).isOk = true)
    ∧ (∀ s : List Nat, MAXLEN < s.length →
        AiString.new s = .error (.CapacityExceeded s.length))
    ∧ ∀ (s : List Nat) (a : AiString), AiString.new s = .ok a →
        a.length = s.length ∧ a.data.take s.length = s := by
  refine ⟨?_, ?_, ?_⟩
  · intro s hs
    simp [AiString.new, AiString.from_raw, hs, Except.isOk, Except.toBool]
  · intro s hs
    simp [AiString.new, AiString.from_raw, hs]
  · intro s a h
    unfold AiString.new AiString.from_raw at h
    split_ifs at h with hl
    simp only [Except.ok.injEq] at h
    subst h
    exact ⟨rfl, by simp⟩

/-- Witness for C7 at inputs of length exactly `MAXLEN` and exactly
`MAXLEN + 1`. -/
theorem aiString_new_capacity_witness :
    (AiString.new (List.replicate MAXLEN 65)).isOk = true
    ∧ AiString.new (List.replicate (MAXLEN + 1) 65)
        = .error (.CapacityExceeded (List.replicate (MAXLEN + 1) 65).length) :=
  ⟨aiString_new_capacity.1 _ (by simp),
    aiString_new_capacity.2.1 _ (by simp)⟩

/-- C8: no cross-field validation — a descriptor with any combination of
field values is constructible (every field of the construction is stored
as given, for arbitrary values, in particular kind `Directional`
together with an arbitrary non-zero position), and from-native never
range-checks the geometry, attenuation or angle fields: it succeeds
whenever the kind integer and name length are acceptable, whatever the
remaining fields hold. -/
theorem light_no_cross_field_validation :
    (∀ (n : AiString) (t : LightType) (p dir : Vector3D)
        (a0 a1 a2 : CFloat) (cd cs ca : Color3D) (ai ao : CFloat),
      ∃ d : Light, d.name = n ∧ d.light_type = t ∧ d.position = p
        ∧ d.direction = dir ∧ d.attenuation_constant = a0
        ∧ d.attenuation_linear = a1 ∧ d.attenuation_quadratic = a2
        ∧ d.color_diffuse = cd ∧ d.color_specular = cs
        ∧ d.color_ambient = ca ∧ d.angle_inner_cone = ai
        ∧ d.angle_outer_cone = ao)
    ∧ ∀ r : AiLightRaw,
        (r.light_type = 0 ∨ r.light_type = 1 ∨ r.light_type = 2
          ∨ r.light_type = 3) →
        r.name_length ≤ MAXLEN →
        (Light.from_native r).isOk = true := by
  constructor
  · intro n t p dir a0 a1 a2 cd cs ca ai ao
    exact ⟨⟨n, t, p, dir, a0, a1, a2, cd, cs, ca, ai, ao⟩,
      rfl, rfl, rfl, rfl, rfl, rfl, rfl, rfl, rfl, rfl, rfl, rfl⟩
  · intro r hk hn
    exact (from_native_isOk_iff r).mpr ⟨hk, hn⟩

/-- A raw record with kind `Directional` (integer 1) and a non-zero
position. -/
def dirNonzeroRaw : AiLightRaw :=
  { name_length := 0
    name_data := List.replicate MAXLEN 0
    light_type := 1
    position := ⟨.val 5, .val 2, .val 7⟩
    direction := ⟨.val 0, .val (-1), .val 0⟩
    attenuation_constant := .val 1
    attenuation_linear := .val 0
    attenuation_quadratic := .val 0
    color_diffuse := ⟨.val 1, .val 1, .val 1⟩
    color_specular := ⟨.val 1, .val 1, .val 1⟩
    color_ambient := ⟨.val 1, .val 1, .val 1⟩
    angle_inner_cone := .val 0
    angle_outer_cone := .val 0 }

/-- Witness for C8: the directional raw record with non-zero position
translates successfully. -/
theorem light_no_cross_field_validation_witness :
    (Light.from_native dirNonzeroRaw).isOk = true :=
  light_no_cross_field_validation.2 dirNonzeroRaw (by decide) (by decide)

/-- C1 counterexample: `nanLight`, a directional descriptor
constructible through public means that carries NaN in a float field,
round-trips structurally to itself, yet the round-tripped value is not
`==`-equal to the original, because the derived `PartialEq` comparison
of float fields is not reflexive at NaN. -/
theorem light_roundtrip_counterexample :
    Light.from_native (Light.to_native nanLight) = .ok nanLight
    ∧ Light.beq nanLight nanLight = false :=
  ⟨roundtrip_structural nanLight (by decide), by decide⟩

/-- C1 (amended): for every descriptor whose name is within the
bounded-string capacity (as every publicly constructed name is) and all
of whose float fields are non-NaN, translating it to the native raw
record and back yields a value `==`-equal to it field for field, the
name comparing insensitively to unused trailing buffer content. -/
theorem light_roundtrip_nanfree (d : Light) (hname : d.name.length ≤ MAXLEN)
    (hnan : d.nanFree = true) :
    ∃ d' : Light, Light.from_native (Light.to_native d) = .ok d'
      ∧ Light.beq d' d = true :=
  ⟨d, roundtrip_structural d hname, by rw [light_beq_self]; exact hnan⟩

/-- Witness for the amended C1 at the spec's concrete Sun scenario
descriptor. -/
theorem light_roundtrip_nanfree_witness :
    ∃ d' : Light, Light.from_native (Light.to_native sunLight) = .ok d'
      ∧ Light.beq d' sunLight = true :=
  light_roundtrip_nanfree sunLight (by decide) (by decide)

/-- C10: equality on `Light` is the derived component-wise `PartialEq`;
it is reflexive exactly on NaN-free descriptors — `beq d d` is `true`
iff no float field of `d` is NaN — while the round-trip through the
native record is structurally the identity, so the round-trip
`==`-equality holds precisely for NaN-free descriptors. -/
theorem light_beq_reflexivity (d : Light)
    (hname : d.name.length ≤ MAXLEN) :
    Light.from_native (Light.to_native d) = .ok d
    ∧ (Light.beq d d = true ↔ d.nanFree = true) :=
  ⟨roundtrip_structural d hname, by rw [light_beq_self]⟩

/-- Witness for C10 at the NaN-carrying concrete descriptor: its
round-trip is the identity and its self-equality is equivalent to its
NaN-freedom (both sides false here). -/
theorem light_beq_reflexivity_witness :
    Light.from_native (Light.to_native nanLight) = .ok nanLight
    ∧ (Light.beq nanLight nanLight = true ↔ nanLight.nanFree = true) :=
  light_beq_reflexivity nanLight (by decide)
